import Mathlib

/-!
Shallow embedding of the moment-selection and session pipeline of the
Tiktok_Yt_Scrap repository (a Next.js application), together with proofs
settling claims C1-C10 about its specification.

Embedded sources:
* src/app/api/download-video/route.ts : detectBestMoments, generateMomentTitle,
  the process-video POST handler, generateMP4WithMoments, the download-video
  POST handler;
* src/app/api/lib/session-store.ts : createSession / getSession / deleteSession,
  and the youtube-analyzer library (analyzeYouTubeVideo, formatTimestamp,
  getEngagementLevel);
* src/app/api/detect-video/route.ts : the detect-video POST handler.

Conventions of the embedding: JavaScript numbers are exact rationals; each
Math.random() draw is a value of an explicit stream rand : Nat → Rat, assumed
to lie in [0, 1) where a claim needs it; the JS Map backing the session store
is a partial function Nat → Option α (Date.now() ids are decimal strings of
naturals, and String conversion is injective on them, so ids are kept as Nat);
Array.prototype.sort with a comparator is List.insertionSort of the
comparator's relation (a stable sort, as in modern JS engines).
-/

/-- A moment object as pushed by detectBestMoments in
src/app/api/download-video/route.ts and by analyzeYouTubeVideo (both produce
the same field set). The source field named end is called ends here, because
end is reserved in Lean. -/
structure Moment where
  timestamp : String
  duration : String
  start : ℚ
  ends : ℚ
  title : String
  score : ℚ
  engagementLevel : String
  deriving Repr, DecidableEq, Inhabited

/-- JavaScript remainder a % b, for the nonnegative operands used here. -/
def jsMod (a b : ℚ) : ℚ := a - b * (⌊a / b⌋ : ℚ)

/-- String(n).padStart(2, "0") for the nonempty digit strings used here. -/
def padStart2 (s : String) : String := if s.length < 2 then "0" ++ s else s

/-- The minutes:seconds display string built from Math.floor(t / 60) and
Math.floor(t % 60); shared by detectBestMoments (inline) and the analyzer's
formatTimestamp. -/
def formatClock (t : ℚ) : String :=
  toString ⌊t / 60⌋ ++ ":" ++ padStart2 (toString ⌊jsMod t 60⌋)

/-- The title pool of generateMomentTitle in download-video/route.ts. -/
def momentTitles : List String :=
  ["Peak engagement", "Viral transition", "Key highlight", "Audience hook",
   "Entertainment spike", "Dynamic moment", "Reaction peak"]

/-- generateMomentTitle from download-video/route.ts: titles[index % titles.length]. -/
def generateMomentTitle (index : ℕ) : String :=
  momentTitles.getD (index % momentTitles.length) ""

/-- detectBestMoments from src/app/api/download-video/route.ts. rand k models
the k-th Math.random() draw of the loop body: iteration i consumes draws
3*i (variance), 3*i+1 (score) and 3*i+2 (engagementLevel), in source order. -/
def detectBestMoments (videoDuration outputDuration : ℚ) (rand : ℕ → ℚ) : List Moment :=
  let avgClipDuration : ℚ := 4.5
  let numClips : ℕ := (⌈outputDuration / avgClipDuration⌉).toNat
  (List.range numClips).map fun (i : ℕ) =>
    let position : ℚ := ((i : ℚ) + 1) / ((numClips : ℚ) + 1)
    let baseTimestamp : ℚ := videoDuration * position
    let variance : ℚ := (rand (3 * i) - 0.5) * (videoDuration * 0.1)
    let timestamp : ℚ := max 0 (min (baseTimestamp + variance) (max (videoDuration - 5) 0))
    { timestamp := formatClock timestamp
      duration := "4-5s"
      start := (⌊timestamp⌋ : ℚ)
      ends := min ((⌊timestamp⌋ : ℚ) + 5) videoDuration
      title := generateMomentTitle i
      score := 0.8 + rand (3 * i + 1) * 0.2
      engagementLevel := if rand (3 * i + 2) > 0.5 then "High" else "Medium" }

/-- The defaulting expression videoData.duration || 600 (0 and a missing field
are falsy in JS, so both fall back to the 600-second policy default). -/
def effectiveDuration : Option ℚ → ℚ
  | none => 600
  | some d => if d = 0 then 600 else d

/-- getEngagementLevel from the youtube-analyzer library. -/
def getEngagementLevel (score : ℚ) : String :=
  if score ≥ 0.9 then "Very High"
  else if score ≥ 0.8 then "High"
  else if score ≥ 0.7 then "Medium"
  else "Good"

/-- The 10-entry title pool of the analyzer's generateMomentTitle. -/
def analyzerTitles : List String :=
  ["Peak engagement", "Viral transition", "Key highlight", "Audience hook",
   "Entertainment spike", "Dynamic moment", "Reaction peak",
   "High energy section", "Story climax", "Laugh moment"]

/-- The analyzer's generateMomentTitle (its score argument is unused in the source). -/
def generateMomentTitleYA (index : ℕ) : String :=
  analyzerTitles.getD (index % analyzerTitles.length) ""

/-- Score-descending comparison: the relation of moments.sort((a, b) => b.score - a.score). -/
def scoreGeM (a b : Moment) : Prop := b.score ≤ a.score

instance : DecidableRel scoreGeM := fun a b => inferInstanceAs (Decidable (b.score ≤ a.score))

/-- analyzeYouTubeVideo from the youtube-analyzer library file. durationField
models videoData.duration (a missing field is none). Iteration i consumes
draws 2*i (variance) and 2*i+1 (engagementScore); the result is sorted by
score descending. -/
def analyzeYouTubeVideo (durationField : Option ℚ) (targetDuration : ℚ)
    (rand : ℕ → ℚ) : List Moment :=
  let videoDuration := effectiveDuration durationField
  let clipDuration : ℚ := 4.5
  let numClips : ℕ := (⌈targetDuration / clipDuration⌉).toNat
  let moments := (List.range numClips).map fun (i : ℕ) =>
    let position : ℚ := ((i : ℚ) + 1) / ((numClips : ℚ) + 1)
    let baseTimestamp : ℚ := videoDuration * position
    let variance : ℚ := (rand (2 * i) - 0.5) * (videoDuration * 0.15)
    let timestamp : ℚ := max 0 (min (baseTimestamp + variance) (max (videoDuration - 5) 0))
    let engagementScore : ℚ := 0.75 + rand (2 * i + 1) * 0.25
    { timestamp := formatClock timestamp
      start := (⌊timestamp⌋ : ℚ)
      ends := min ((⌊timestamp⌋ : ℚ) + 5) videoDuration
      duration := "4-5s"
      title := generateMomentTitleYA i
      score := engagementScore
      engagementLevel := getEngagementLevel engagementScore }
  moments.insertionSort scoreGeM

/-- One entry of the videos array posted to process-video (id, title and the
optional duration are all the handler reads). -/
structure InVideo where
  id : String
  title : String
  duration : Option ℚ
  deriving Repr, DecidableEq, Inhabited

/-- A moment of the process-video handler after the ...moment spread adds
videoIndex, videoTitle, videoId and order. degraded models reading a key the
code never writes: it is always none. -/
structure PMoment where
  timestamp : String
  duration : String
  start : ℚ
  ends : ℚ
  title : String
  score : ℚ
  engagementLevel : String
  videoIndex : ℕ
  videoTitle : String
  videoId : String
  order : ℕ
  degraded : Option Bool
  deriving Repr, DecidableEq, Inhabited

/-- The object spread { ...moment, videoIndex, videoTitle, videoId, order }. -/
def withMeta (m : Moment) (videoIndex : ℕ) (v : InVideo) (order : ℕ) : PMoment :=
  { timestamp := m.timestamp
    duration := m.duration
    start := m.start
    ends := m.ends
    title := m.title
    score := m.score
    engagementLevel := m.engagementLevel
    videoIndex := videoIndex
    videoTitle := v.title
    videoId := v.id
    order := order
    degraded := none }

/-- moments.map((moment, idx) => ({ ...moment, ..., order: allMoments.length + idx + 1 })):
accLen is allMoments.length at the start of the batch, idx the running map index. -/
def attachMeta (videoIndex : ℕ) (v : InVideo) (accLen idx : ℕ) : List Moment → List PMoment
  | [] => []
  | m :: rest => withMeta m videoIndex v (accLen + idx + 1) :: attachMeta videoIndex v accLen (idx + 1) rest

/-- The candidate-collection loop of the process-video POST handler: for each
video it appends detectBestMoments output decorated with metadata and orders
continuing from the accumulated length. rand vi is the Math.random() stream
consumed while processing video vi. -/
def buildAll (outputDuration : ℚ) (rand : ℕ → ℕ → ℚ) :
    ℕ → ℕ → List InVideo → List PMoment
  | _, _, [] => []
  | vi, accLen, v :: rest =>
    let ms := detectBestMoments (effectiveDuration v.duration) outputDuration (rand vi)
    let batch := attachMeta vi v accLen 0 ms
    batch ++ buildAll outputDuration rand (vi + 1) (accLen + batch.length) rest

/-- Score-descending comparison on processed moments: allMoments.sort((a, b) => b.score - a.score). -/
def scoreGeP (a b : PMoment) : Prop := b.score ≤ a.score

instance : DecidableRel scoreGeP := fun a b => inferInstanceAs (Decidable (b.score ≤ a.score))

/-- Order-ascending comparison: .sort((a, b) => a.order - b.order). -/
def orderLeP (a b : PMoment) : Prop := a.order ≤ b.order

instance : DecidableRel orderLeP := fun a b => inferInstanceAs (Decidable (a.order ≤ b.order))

/-- The moment-selection part of the process-video POST handler: collect all
candidates, sort by score descending, truncate to the clip budget
ceil(outputDuration / 4.5), and re-sort the survivors by ascending order.
(The JS slice(0, n) is take n: for outputDuration > 0 the bound is positive,
and otherwise the candidate list is already empty.) -/
def processVideos (videos : List InVideo) (outputDuration : ℚ)
    (rand : ℕ → ℕ → ℚ) : List PMoment :=
  let allMoments := buildAll outputDuration rand 0 0 videos
  let clipDuration : ℚ := 4.5
  let targetClipCount : ℕ := (⌈outputDuration / clipDuration⌉).toNat
  ((allMoments.insertionSort scoreGeP).take targetClipCount).insertionSort orderLeP

/-- The JS Map backing the session store, as a partial function on ids. -/
def SessionMap (α : Type) : Type := ℕ → Option α

/-- Map.prototype.set. -/
def mapSet {α : Type} (k : ℕ) (v : α) (m : SessionMap α) : SessionMap α :=
  fun q => if q = k then some v else m q

/-- Map.prototype.delete (total: deleting an absent key is a no-op). -/
def mapDelete {α : Type} (k : ℕ) (m : SessionMap α) : SessionMap α :=
  fun q => if q = k then none else m q

/-- new Map(): the initial empty session store. -/
def emptyStore (α : Type) : SessionMap α := fun _ => none

/-- createSession from session-store.ts: the returned id is Date.now() (the
clock value now at call time), the data is stored under it, and a timer is
scheduled that will run expireSession on that id one hour later. -/
def createSession {α : Type} (now : ℕ) (data : α) (st : SessionMap α) :
    ℕ × SessionMap α :=
  (now, mapSet now data st)

/-- getSession from session-store.ts. -/
def getSession {α : Type} (sessionId : ℕ) (st : SessionMap α) : Option α :=
  st sessionId

/-- deleteSession from session-store.ts. -/
def deleteSession {α : Type} (sessionId : ℕ) (st : SessionMap α) : SessionMap α :=
  mapDelete sessionId st

/-- The body of the TTL timer scheduled by createSession:
sessionStore.delete(sessionId), one hour after creation. -/
def expireSession {α : Type} (sessionId : ℕ) (st : SessionMap α) : SessionMap α :=
  mapDelete sessionId st

/-- The session payload stored by the process-video handler and read back by
the download-video handler. -/
structure SessionData where
  moments : List PMoment
  videosCount : ℕ
  quality : String
  duration : ℚ
  createdAt : String
  deriving Repr, DecidableEq, Inhabited

/-- generateMP4WithMoments from download-video/route.ts, modelled by its mdat
payload: the newline-joined "[order] title @ timestamp" lines (the fixed
ftyp/mdat header bytes carry no claim-relevant information). -/
def generateMP4WithMoments (moments : List PMoment) : String :=
  String.intercalate "\n"
    (moments.map fun m =>
      "[" ++ toString m.order ++ "] " ++ m.title ++ " @ " ++ m.timestamp)

/-- The three outcomes of the download-video POST handler. -/
inductive DownloadResponse where
  | badRequest (error : String)
  | notFound (error : String)
  | ok (body : String)
  deriving Repr, DecidableEq

/-- The download-video POST handler: 400 without a session id, 404 when the
session is missing or expired, otherwise build the artifact, delete the
session, and return the artifact. -/
def downloadPost (sessionId : Option ℕ) (st : SessionMap SessionData) :
    DownloadResponse × SessionMap SessionData :=
  match sessionId with
  | none => (.badRequest "No session ID provided", st)
  | some sid =>
    match getSession sid st with
    | none => (.notFound "Session not found or expired", st)
    | some data => (.ok (generateMP4WithMoments data.moments), deleteSession sid st)

/-- Metadata returned by getYoutubeMetadata on success. -/
structure VideoMeta where
  id : String
  title : String
  author : String
  thumbnail : String
  duration : ℚ
  durationFormatted : String
  deriving Repr, DecidableEq, Inhabited

/-- One entry of the detect-video response. -/
structure DetectedVideo where
  id : String
  url : String
  title : String
  duration : ℚ
  durationFormatted : String
  channel : String
  thumbnail : String
  error : Option String
  deriving Repr, DecidableEq, Inhabited

/-- The per-url body of the detect-video POST handler: on a successful
metadata fetch, the normal entry; on a failure, the catch branch builds the
placeholder entry (random id eid, fixed defaults, error message attached). -/
def detectOne (resolve : String → Except String VideoMeta) (eid : String)
    (url : String) : DetectedVideo :=
  match resolve url with
  | .ok m =>
    { id := m.id, url := url, title := m.title, duration := m.duration,
      durationFormatted := m.durationFormatted, channel := m.author,
      thumbnail := m.thumbnail, error := none }
  | .error e =>
    { id := eid, url := url, title := "Error loading video", duration := 600,
      durationFormatted := "10:00", channel := "Unknown",
      thumbnail := "/system-error-screen.png", error := some e }

/-- The detect-video POST handler over a url batch: urls.map with a per-entry
try/catch, so Promise.all never rejects. resolve models getYoutubeMetadata (an
external fetch); errId i models the Math.random-based placeholder id drawn for
entry i, and the map is written over the index range to expose that draw. -/
def detectVideos (resolve : String → Except String VideoMeta) (errId : ℕ → String)
    (urls : List String) : List DetectedVideo :=
  (List.range urls.length).map fun i => detectOne resolve (errId i) (urls.getD i "")

/-- A concrete 600-second video input used by several concrete instances. -/
def videoSix : InVideo := ⟨"v1", "Video One", some 600⟩

/-- A concrete video input whose duration metadata is missing. -/
def videoNoDuration : InVideo := ⟨"v2", "Video Two", none⟩

/-- The constant 1/2 random stream (variance 0, mid scores). -/
def halfRand : ℕ → ℚ := fun _ => 1/2

/-- The constant 1/2 per-video random stream family. -/
def halfRand2 : ℕ → ℕ → ℚ := fun _ _ => 1/2

/-- A valid random stream family (all draws in [0, 1)): the very first draw of
each video is 0.99, every later draw is 0. -/
def c2Rand : ℕ → ℕ → ℚ := fun _ k => if k = 0 then 99/100 else 0

/-- A concrete metadata resolver: fails on the url "bad", succeeds otherwise. -/
def resolveW : String → Except String VideoMeta :=
  fun u => if u = "bad" then .error "boom"
    else .ok ⟨"id1", "A title", "An author", "thumb", 300, "5:00"⟩

/-- A concrete placeholder-id stream for detect-video failures. -/
def errIdW : ℕ → String := fun _ => "e"

/-- A concrete stored session payload. -/
def sessionD : SessionData := ⟨[], 0, "720p", 30, "t0"⟩

set_option maxRecDepth 100000

/-- effectiveDuration keeps a nonzero duration. -/
theorem effectiveDuration_some {d : ℚ} (h : d ≠ 0) : effectiveDuration (some d) = d :=
  if_neg h

/-- Bounds of the clamped, floored timestamp shared by both selectors: for
positive D the start floor(max 0 (min z (max (D-5) 0))) is nonnegative,
strictly below the end min (start + 5) D, and that end is at most D. -/
theorem clampedStart_bounds (D z : ℚ) (hD : 0 < D) :
    0 ≤ ((⌊max 0 (min z (max (D - 5) 0))⌋ : ℚ)) ∧
      ((⌊max 0 (min z (max (D - 5) 0))⌋ : ℚ)) <
        min ((⌊max 0 (min z (max (D - 5) 0))⌋ : ℚ) + 5) D ∧
      min ((⌊max 0 (min z (max (D - 5) 0))⌋ : ℚ) + 5) D ≤ D := by
  set t := max 0 (min z (max (D - 5) 0)) with ht
  have ht0 : 0 ≤ t := le_max_left _ _
  have htup : t ≤ max (D - 5) 0 := max_le (le_max_right _ _) (min_le_right _ _)
  have hf0 : 0 ≤ ((⌊t⌋ : ℚ)) := by
    have := Int.floor_nonneg.2 ht0
    exact_mod_cast this
  have hfl : ((⌊t⌋ : ℚ)) ≤ t := Int.floor_le t
  have hlt : ((⌊t⌋ : ℚ)) < D := by
    rcases le_or_lt 5 D with h5 | h5
    · have hmx : max (D - 5) 0 = D - 5 := max_eq_left (by linarith)
      rw [hmx] at htup
      linarith
    · have hmx : max (D - 5) 0 = 0 := max_eq_right (by linarith)
      rw [hmx] at htup
      have hteq : t = 0 := le_antisymm htup ht0
      rw [hteq] at hfl
      have h0 : ((⌊(0 : ℚ)⌋ : ℚ)) = 0 := by norm_num
      rw [hteq]
      rw [h0]
      exact hD
  exact ⟨hf0, lt_min (by linarith) hlt, min_le_right _ _⟩

/-- Every moment emitted by detectBestMoments has
0 ≤ start < ends ≤ videoDuration, for positive videoDuration. -/
theorem detectBestMoments_mem_bounds (D T : ℚ) (rand : ℕ → ℚ) (hD : 0 < D) :
    ∀ m ∈ detectBestMoments D T rand,
      0 ≤ m.start ∧ m.start < m.ends ∧ m.ends ≤ D := by
  intro m hm
  simp only [detectBestMoments, List.mem_map, List.mem_range] at hm
  obtain ⟨i, -, rfl⟩ := hm
  exact clampedStart_bounds D _ hD

/-- Every moment emitted by analyzeYouTubeVideo has
0 ≤ start < ends ≤ videoDuration, for a present positive duration field. -/
theorem analyzeYouTubeVideo_mem_bounds (D T : ℚ) (rand : ℕ → ℚ) (hD : 0 < D) :
    ∀ m ∈ analyzeYouTubeVideo (some D) T rand,
      0 ≤ m.start ∧ m.start < m.ends ∧ m.ends ≤ D := by
  intro m hm
  simp only [analyzeYouTubeVideo, effectiveDuration_some hD.ne',
    List.mem_insertionSort, List.mem_map, List.mem_range] at hm
  obtain ⟨i, -, rfl⟩ := hm
  exact clampedStart_bounds D _ hD

/-- The clip budget ceil(T / 4.5) is at least 1 for positive T. -/
theorem one_le_clipCount (T : ℚ) (hT : 0 < T) : 1 ≤ ((⌈T / (4.5 : ℚ)⌉).toNat) := by
  have hpos : (0 : ℚ) < T / 4.5 := div_pos hT (by norm_num)
  have := Int.ceil_pos.2 hpos
  omega

/-- Claim C1: for every videoDuration > 0 and targetDuration > 0, the moment
selector returns at least one Moment, and every returned Moment m satisfies
0 ≤ m.start < m.ends ≤ videoDuration. Proved for detectBestMoments (the
selector the process-video handler runs) and for the analyzeYouTubeVideo
variant alike. -/
theorem C1_selector_bounds (D T : ℚ) (rand randA : ℕ → ℚ)
    (hD : 0 < D) (hT : 0 < T) :
    (1 ≤ (detectBestMoments D T rand).length ∧
      ∀ m ∈ detectBestMoments D T rand,
        0 ≤ m.start ∧ m.start < m.ends ∧ m.ends ≤ D) ∧
    (1 ≤ (analyzeYouTubeVideo (some D) T randA).length ∧
      ∀ m ∈ analyzeYouTubeVideo (some D) T randA,
        0 ≤ m.start ∧ m.start < m.ends ∧ m.ends ≤ D) := by
  refine ⟨⟨?_, detectBestMoments_mem_bounds D T rand hD⟩,
    ⟨?_, analyzeYouTubeVideo_mem_bounds D T randA hD⟩⟩
  · simpa [detectBestMoments] using one_le_clipCount T hT
  · simpa [analyzeYouTubeVideo] using one_le_clipCount T hT

/-- Witness for C1 at videoDuration = 600, targetDuration = 30 and the
constant 1/2 random stream. -/
theorem C1_selector_bounds_witness :
    1 ≤ (detectBestMoments 600 30 (fun _ => 1/2)).length :=
  (C1_selector_bounds 600 30 (fun _ => 1/2) (fun _ => 1/2)
    (by norm_num) (by norm_num)).1.1


/-- The clamp used by the selectors collapses to 0 when the video lasts less
than the 5-second clip length (here videoDuration = 3). -/
theorem clamp3_eq_zero (z : ℚ) : max 0 (min z (max ((3 : ℚ) - 5) 0)) = 0 := by
  have h : max ((3 : ℚ) - 5) 0 = 0 := max_eq_right (by norm_num)
  rw [h]
  exact max_eq_left (min_le_right _ _)

/-- Claim C3 counterexample: for videoDuration = 3 and targetDuration = 30 the
selector does not return exactly one Moment (at the constant 1/2 random
stream it returns 7). -/
theorem C3_single_moment_counterexample :
    ¬ ((detectBestMoments 3 30 halfRand).length = 1) := by
  intro h
  have h7 : (detectBestMoments 3 30 halfRand).length = 7 :=
    of_decide_eq_true (by with_unfolding_all rfl)
  omega

/-- Claim C3 amended: for videoDuration = 3 and targetDuration = 30 the
selector returns ceil(30/4.5) = 7 Moments (not one), and each of them spans
the whole video (start 0, end 3), whatever the random draws. -/
theorem C3_short_video_moments (rand : ℕ → ℚ) :
    (detectBestMoments 3 30 rand).length = 7 ∧
      ∀ m ∈ detectBestMoments 3 30 rand, m.start = 0 ∧ m.ends = 3 := by
  constructor
  · have h7 : ((⌈(30 : ℚ) / 4.5⌉).toNat) = 7 :=
      of_decide_eq_true (by with_unfolding_all rfl)
    simp [detectBestMoments, h7]
  · intro m hm
    simp only [detectBestMoments, List.mem_map, List.mem_range] at hm
    obtain ⟨i, -, rfl⟩ := hm
    refine ⟨?_, ?_⟩
    · simp [clamp3_eq_zero]
    · simp [clamp3_eq_zero]
      norm_num

/-- Sum of a map whose values are all c: length * c. -/
theorem sum_map_const {α : Type} (f : α → ℚ) (c : ℚ) (l : List α)
    (h : ∀ m ∈ l, f m = c) : (l.map f).sum = l.length * c := by
  induction l with
  | nil => simp
  | cons a l ih =>
    simp only [List.map_cons, List.sum_cons, List.length_cons]
    rw [h a (by simp), ih (fun m hm => h m (by simp [hm]))]
    push_cast
    ring

/-- For a 600-second video and a 30-second target, every moment emitted by
detectBestMoments is exactly 5 seconds long, for any draws in [0, 1). -/
theorem detect600_clip_len_five (s : ℕ → ℚ) (hs : ∀ k, 0 ≤ s k ∧ s k < 1) :
    ∀ m ∈ detectBestMoments 600 30 s, m.ends - m.start = 5 := by
  have h7 : ((⌈(30 : ℚ) / 4.5⌉).toNat) = 7 :=
    of_decide_eq_true (by with_unfolding_all rfl)
  intro m hm
  simp only [detectBestMoments, h7, List.mem_map, List.mem_range] at hm
  obtain ⟨i, hi, rfl⟩ := hm
  have hiq : (i : ℚ) ≤ 6 := by exact_mod_cast Nat.lt_succ_iff.mp hi
  have hiq0 : (0 : ℚ) ≤ (i : ℚ) := Nat.cast_nonneg i
  obtain ⟨hr0, hr1⟩ := hs (3 * i)
  set r := s (3 * i) with hrdef
  set z : ℚ := 600 * (((i : ℚ) + 1) / ((7 : ℕ) + 1)) + (r - 0.5) * (600 * 0.1) with hz
  have hzeq : z = 75 * ((i : ℚ) + 1) + (r - 1/2) * 60 := by
    rw [hz]
    push_cast
    ring
  have hz0 : 0 ≤ z := by rw [hzeq]; nlinarith
  have hz595 : z ≤ 595 := by rw [hzeq]; nlinarith
  have hmx : max ((600 : ℚ) - 5) 0 = 595 := by norm_num
  have ht : max 0 (min z (max ((600 : ℚ) - 5) 0)) = z := by
    rw [hmx, min_eq_left hz595, max_eq_right hz0]
  simp only [ht]
  have hfl : ((⌊z⌋ : ℚ)) ≤ z := Int.floor_le z
  have hmin : min ((⌊z⌋ : ℚ) + 5) 600 = (⌊z⌋ : ℚ) + 5 := min_eq_left (by linarith)
  rw [hmin]
  ring

/-- attachMeta preserves the batch length. -/
theorem attachMeta_length (vi : ℕ) (v : InVideo) (accLen : ℕ) :
    ∀ (idx : ℕ) (ms : List Moment),
      (attachMeta vi v accLen idx ms).length = ms.length := by
  intro idx ms
  induction ms generalizing idx with
  | nil => rfl
  | cons m rest ih => simp [attachMeta, ih]

/-- Every element of an attachMeta batch is withMeta of a batch moment. -/
theorem attachMeta_mem (vi : ℕ) (v : InVideo) (accLen : ℕ) :
    ∀ (idx : ℕ) (ms : List Moment) (p : PMoment),
      p ∈ attachMeta vi v accLen idx ms →
      ∃ m ∈ ms, ∃ ord : ℕ, p = withMeta m vi v ord := by
  intro idx ms
  induction ms generalizing idx with
  | nil => intro p hp; simp [attachMeta] at hp
  | cons m rest ih =>
    intro p hp
    simp only [attachMeta, List.mem_cons] at hp
    rcases hp with h | h
    · exact ⟨m, by simp, _, h⟩
    · obtain ⟨m2, hm2, ord, hord⟩ := ih (idx + 1) p h
      exact ⟨m2, by simp [hm2], ord, hord⟩

/-- Every candidate collected by the process-video loop is a decorated copy of
a detectBestMoments output for one of the input videos. -/
theorem buildAll_mem (T : ℚ) (rand : ℕ → ℕ → ℚ) :
    ∀ (vids : List InVideo) (vi accLen : ℕ) (p : PMoment),
      p ∈ buildAll T rand vi accLen vids →
      ∃ v ∈ vids, ∃ j : ℕ,
        ∃ m ∈ detectBestMoments (effectiveDuration v.duration) T (rand j),
          ∃ ord : ℕ, p = withMeta m j v ord := by
  intro vids
  induction vids with
  | nil => intro vi accLen p hp; simp [buildAll] at hp
  | cons v rest ih =>
    intro vi accLen p hp
    simp only [buildAll, List.mem_append] at hp
    rcases hp with h | h
    · obtain ⟨m, hm, ord, hord⟩ := attachMeta_mem vi v accLen 0 _ p h
      exact ⟨v, by simp, vi, m, hm, ord, hord⟩
    · obtain ⟨v2, hv2, j, m, hm, ord, hord⟩ := ih (vi + 1) _ p h
      exact ⟨v2, by simp [hv2], j, m, hm, ord, hord⟩

/-- Claim C4 counterexample: for videoDuration = 600 and targetDuration = 30
(at the constant 1/2 random stream, a valid jitter outcome) the pipeline
returns clips totalling exactly 35 seconds, which lies outside the claimed
±15% tolerance band around the 30-second target (|35 - 30| > 4.5). -/
theorem C4_tolerance_counterexample :
    ((processVideos [videoSix] 30 halfRand2).map (fun m => m.ends - m.start)).sum = 35 ∧
      ¬ (|((processVideos [videoSix] 30 halfRand2).map
            (fun m => m.ends - m.start)).sum - 30| ≤ (15 / 100 : ℚ) * 30) := by
  have h : ((processVideos [videoSix] 30 halfRand2).map
      (fun m => m.ends - m.start)).sum = 35 :=
    of_decide_eq_true (by with_unfolding_all rfl)
  refine ⟨h, ?_⟩
  rw [h]
  norm_num

/-- Claim C4 amended: for videoDuration = 600 and targetDuration = 30 the
pipeline returns exactly 7 clips and the sum of (end - start) is exactly 35
seconds for every outcome of the random jitter in [0, 1) — inside the claimed
30-35s band, but above the 115% of targetDuration that a ±15% tolerance
allows. -/
theorem C4_clip_budget_sum (rand : ℕ → ℕ → ℚ)
    (hr : ∀ v k, 0 ≤ rand v k ∧ rand v k < 1) :
    (processVideos [videoSix] 30 rand).length = 7 ∧
      ((processVideos [videoSix] 30 rand).map (fun m => m.ends - m.start)).sum = 35 := by
  have h7 : ((⌈(30 : ℚ) / 4.5⌉).toNat) = 7 :=
    of_decide_eq_true (by with_unfolding_all rfl)
  have hdet : (detectBestMoments (effectiveDuration videoSix.duration) 30 (rand 0)).length = 7 := by
    simp [detectBestMoments, h7]
  have hcl : (buildAll 30 rand 0 0 [videoSix]).length = 7 := by
    simp only [buildAll, List.length_append, attachMeta_length]
    simpa [buildAll] using hdet
  have hmem5 : ∀ p ∈ buildAll 30 rand 0 0 [videoSix], p.ends - p.start = (5 : ℚ) := by
    intro p hp
    obtain ⟨v, hv, j, m, hm, ord, rfl⟩ := buildAll_mem 30 rand [videoSix] 0 0 p hp
    have hv6 : v = videoSix := by simpa using hv
    subst hv6
    have he : effectiveDuration videoSix.duration = 600 := by
      simp [videoSix, effectiveDuration]
    rw [he] at hm
    have h5 := detect600_clip_len_five (rand j) (fun k => hr j k) m hm
    simpa [withMeta] using h5
  have htake : ((buildAll 30 rand 0 0 [videoSix]).insertionSort scoreGeP).take
      ((⌈(30 : ℚ) / 4.5⌉).toNat) =
      (buildAll 30 rand 0 0 [videoSix]).insertionSort scoreGeP := by
    apply List.take_of_length_le
    rw [List.length_insertionSort, hcl, h7]
  have hperm : List.Perm (processVideos [videoSix] 30 rand)
      (buildAll 30 rand 0 0 [videoSix]) := by
    show List.Perm ((((buildAll 30 rand 0 0 [videoSix]).insertionSort scoreGeP).take
      ((⌈(30 : ℚ) / 4.5⌉).toNat)).insertionSort orderLeP) _
    rw [htake]
    exact (List.perm_insertionSort _ _).trans (List.perm_insertionSort _ _)
  constructor
  · rw [hperm.length_eq, hcl]
  · rw [(hperm.map (fun m => m.ends - m.start)).sum_eq,
      sum_map_const _ 5 _ hmem5, hcl]
    norm_num

/-- Witness for C4 amended at the constant 1/2 stream. -/
theorem C4_clip_budget_sum_witness :
    (processVideos [videoSix] 30 halfRand2).length = 7 :=
  (C4_clip_budget_sum halfRand2 (fun v k => by norm_num [halfRand2])).1

/-- The orders assigned inside one attachMeta batch are the consecutive
naturals starting at accLen + idx + 1. -/
theorem attachMeta_map_order (vi : ℕ) (v : InVideo) (accLen : ℕ) :
    ∀ (idx : ℕ) (ms : List Moment),
      (attachMeta vi v accLen idx ms).map PMoment.order =
        List.range' (accLen + idx + 1) ms.length := by
  intro idx ms
  induction ms generalizing idx with
  | nil => rfl
  | cons m rest ih =>
    simp only [attachMeta, List.map_cons, ih (idx + 1), List.length_cons]
    rw [List.range'_succ]
    have harg : accLen + (idx + 1) + 1 = accLen + idx + 1 + 1 := by omega
    rw [harg]
    rfl

/-- Across the whole candidate collection the orders are the consecutive
naturals starting at accLen + 1. -/
theorem buildAll_map_order (T : ℚ) (rand : ℕ → ℕ → ℚ) :
    ∀ (vids : List InVideo) (vi accLen : ℕ),
      (buildAll T rand vi accLen vids).map PMoment.order =
        List.range' (accLen + 1) (buildAll T rand vi accLen vids).length := by
  intro vids
  induction vids with
  | nil => intro vi accLen; rfl
  | cons v rest ih =>
    intro vi accLen
    simp only [buildAll, List.map_append, List.length_append]
    rw [attachMeta_map_order, ih, attachMeta_length]
    have e0 : accLen + 0 + 1 = accLen + 1 := by omega
    rw [e0]
    have e1 : accLen +
        (detectBestMoments (effectiveDuration v.duration) T (rand vi)).length + 1 =
        accLen + 1 +
          (detectBestMoments (effectiveDuration v.duration) T (rand vi)).length := by omega
    rw [e1, List.range'_append_1]
    congr 1
    omega

/-- The candidate list carries strictly increasing orders. -/
theorem buildAll_pairwise_order (T : ℚ) (rand : ℕ → ℕ → ℚ) (vids : List InVideo) :
    (buildAll T rand 0 0 vids).Pairwise (fun a b => a.order < b.order) := by
  have hp : ((buildAll T rand 0 0 vids).map PMoment.order).Pairwise (· < ·) := by
    rw [buildAll_map_order]
    exact List.pairwise_lt_range' _ _
  exact List.pairwise_map.mp hp

/-- Claim C2 amended: the process-video pipeline output is exactly the
candidate list sorted by score descending, truncated to the clip budget
ceil(T/4.5), and re-sorted by ascending order; the final list is strictly
increasing in the order field. The order field records per-video generation
order (nominal chronological positions before jitter), which need not match
the jittered start times. -/
theorem C2_selection_order (videos : List InVideo) (T : ℚ) (rand : ℕ → ℕ → ℚ) :
    processVideos videos T rand =
      (((buildAll T rand 0 0 videos).insertionSort scoreGeP).take
          ((⌈T / (4.5 : ℚ)⌉).toNat)).insertionSort orderLeP ∧
      (processVideos videos T rand).Pairwise (fun a b => a.order < b.order) := by
  constructor
  · rfl
  · haveI hto : IsTotal PMoment orderLeP := ⟨fun a b => Nat.le_total a.order b.order⟩
    haveI htr : IsTrans PMoment orderLeP := ⟨fun a b c h1 h2 => Nat.le_trans h1 h2⟩
    have hsorted : (processVideos videos T rand).Pairwise orderLeP :=
      List.sorted_insertionSort orderLeP _
    have hnodup0 : ((buildAll T rand 0 0 videos).map PMoment.order).Nodup := by
      rw [buildAll_map_order]
      exact List.nodup_range' _ _
    have hnodup1 : (((buildAll T rand 0 0 videos).insertionSort scoreGeP).map
        PMoment.order).Nodup :=
      (List.Perm.nodup_iff ((List.perm_insertionSort _ _).map _)).mpr hnodup0
    have hnodup2 : ((((buildAll T rand 0 0 videos).insertionSort scoreGeP).take
        ((⌈T / (4.5 : ℚ)⌉).toNat)).map PMoment.order).Nodup :=
      ((List.take_sublist _ _).map _).nodup hnodup1
    have hnodup3 : ((processVideos videos T rand).map PMoment.order).Nodup :=
      (List.Perm.nodup_iff ((List.perm_insertionSort _ _).map _)).mpr hnodup2
    have hne : (processVideos videos T rand).Pairwise
        (fun a b => a.order ≠ b.order) := List.pairwise_map.mp hnodup3
    exact (hsorted.and hne).imp (fun h => lt_of_le_of_ne h.1 h.2)

/-- Claim C2 counterexample: one 600-second video, targetDuration 45, and the
valid jitter outcome c2Rand (all draws in [0, 1)). The final list has strictly
increasing orders 1, 2, ... but its first two start times are 83 and 79, so
the order does not match chronological start time. -/
theorem C2_chronological_counterexample :
    ((processVideos [videoSix] 45 c2Rand).map PMoment.order).take 2 = [1, 2] ∧
      ((processVideos [videoSix] 45 c2Rand).map PMoment.start).take 2 = [83, 79] ∧
      ¬ ((processVideos [videoSix] 45 c2Rand).Pairwise
          (fun a b => a.start ≤ b.start)) := by
  have horder : ((processVideos [videoSix] 45 c2Rand).map PMoment.order).take 2 = [1, 2] :=
    of_decide_eq_true (by with_unfolding_all rfl)
  have hstart : ((processVideos [videoSix] 45 c2Rand).map PMoment.start).take 2
      = [(83 : ℚ), 79] :=
    of_decide_eq_true (by with_unfolding_all rfl)
  refine ⟨horder, hstart, ?_⟩
  intro hp
  have hmp : ((processVideos [videoSix] 45 c2Rand).map PMoment.start).Pairwise
      (fun a b => a ≤ b) := List.pairwise_map.mpr hp
  rw [← List.take_append_drop 2
    ((processVideos [videoSix] 45 c2Rand).map PMoment.start), hstart] at hmp
  have hpair := (List.pairwise_append.mp hmp).1
  rw [List.pairwise_pair] at hpair
  norm_num at hpair

/-- Claim C5: for positive durations the selector emits exactly
ceil(targetDuration / 4.5) candidate moments; moment i starts at the floor of
the clamp of videoDuration * (i+1)/(clipCount+1) perturbed by a jitter v with
|v| ≤ videoDuration/20, and ends at start + 5 clamped above by videoDuration. -/
theorem C5_selector_shape (D T : ℚ) (rand : ℕ → ℚ) (hD : 0 < D) (hT : 0 < T)
    (hr : ∀ k, 0 ≤ rand k ∧ rand k < 1) :
    ((detectBestMoments D T rand).length : ℤ) = ⌈T / (4.5 : ℚ)⌉ ∧
      ∀ (i : ℕ) (h : i < (detectBestMoments D T rand).length),
        ∃ v : ℚ, |v| ≤ D / 20 ∧
          ((detectBestMoments D T rand).get ⟨i, h⟩).start =
            (⌊max 0 (min (D * (((i : ℚ) + 1) / (((⌈T / (4.5 : ℚ)⌉).toNat : ℚ) + 1)) + v)
              (max (D - 5) 0))⌋ : ℚ) ∧
          ((detectBestMoments D T rand).get ⟨i, h⟩).ends =
            min (((detectBestMoments D T rand).get ⟨i, h⟩).start + 5) D := by
  have hlen : (detectBestMoments D T rand).length = ((⌈T / (4.5 : ℚ)⌉).toNat) := by
    simp [detectBestMoments]
  have hcpos : (0 : ℤ) < ⌈T / (4.5 : ℚ)⌉ := Int.ceil_pos.2 (div_pos hT (by norm_num))
  constructor
  · rw [hlen]
    exact Int.toNat_of_nonneg hcpos.le
  · intro i h
    refine ⟨(rand (3 * i) - 0.5) * (D * 0.1), ?_, ?_, ?_⟩
    · obtain ⟨h0, h1⟩ := hr (3 * i)
      rw [abs_le]
      constructor <;> nlinarith
    · simp [detectBestMoments, List.get_eq_getElem, List.getElem_map, List.getElem_range]
    · simp [detectBestMoments, List.get_eq_getElem, List.getElem_map, List.getElem_range]

/-- Witness for C5 at videoDuration 600, targetDuration 30 and the constant
1/2 random stream. -/
theorem C5_selector_shape_witness :
    ((detectBestMoments 600 30 halfRand).length : ℤ) = ⌈(30 : ℚ) / 4.5⌉ :=
  (C5_selector_shape 600 30 halfRand (by norm_num) (by norm_num)
    (fun k => by norm_num [halfRand])).1

/-- Claim C6: the session store contract. get after create returns the stored
payload; get after delete, or after the TTL timer fired, is a miss; delete is
idempotent (a second delete, or a delete after expiry, is a no-op rather than
an error — all operations are total functions of the store). -/
theorem C6_session_store_contract {α : Type} (now : ℕ) (d : α)
    (st : SessionMap α) (sid : ℕ) :
    getSession (createSession now d st).1 (createSession now d st).2 = some d ∧
      getSession sid (deleteSession sid st) = none ∧
      getSession sid (expireSession sid st) = none ∧
      deleteSession sid (deleteSession sid st) = deleteSession sid st ∧
      deleteSession sid (expireSession sid st) = expireSession sid st := by
  refine ⟨?_, ?_, ?_, ?_, ?_⟩
  · simp [createSession, getSession, mapSet]
  · simp [deleteSession, getSession, mapDelete]
  · simp [expireSession, getSession, mapDelete]
  · funext q
    by_cases hq : q = sid <;> simp [deleteSession, mapDelete, hq]
  · funext q
    by_cases hq : q = sid <;> simp [deleteSession, expireSession, mapDelete, hq]

/-- Claim C7 counterexample: two createSession calls in the same millisecond
(Date.now() returns 5 both times). The second call returns the id 5 that is
already stored and live, and overwrites its data (10 becomes 20), refuting
both freshness and never-overwriting. -/
theorem C7_fresh_id_counterexample :
    getSession 5 (createSession 5 (10 : ℕ) (emptyStore ℕ)).2 = some 10 ∧
      (createSession 5 (20 : ℕ) (createSession 5 10 (emptyStore ℕ)).2).1 = 5 ∧
      getSession 5 (createSession 5 (20 : ℕ) (createSession 5 10 (emptyStore ℕ)).2).2 =
        some 20 := by
  refine ⟨?_, rfl, ?_⟩
  · simp [createSession, getSession, mapSet]
  · simp [createSession, getSession, mapSet]

/-- Claim C7 amended: provided the clock value now is not an id currently
stored (no same-millisecond collision), createSession returns the fresh id
now, stores the payload under it, and leaves every live session intact. -/
theorem C7_fresh_id_amended {α : Type} (now : ℕ) (d : α) (st : SessionMap α)
    (h : getSession now st = none) :
    (createSession now d st).1 = now ∧
      getSession now (createSession now d st).2 = some d ∧
      ∀ (sid : ℕ) (d2 : α), getSession sid st = some d2 →
        sid ≠ (createSession now d st).1 ∧
        getSession sid (createSession now d st).2 = some d2 := by
  refine ⟨rfl, by simp [createSession, getSession, mapSet], ?_⟩
  intro sid d2 hsid
  have hne : sid ≠ now := by
    intro he
    rw [he, h] at hsid
    exact Option.noConfusion hsid
  refine ⟨hne, ?_⟩
  rw [← hsid]
  simp [createSession, getSession, mapSet, hne]

/-- Witness for C7 amended: a store holding session 3, a create at time 5. -/
theorem C7_fresh_id_amended_witness :
    (createSession 5 (10 : ℕ) (mapSet 3 7 (emptyStore ℕ))).1 = 5 ∧
      getSession 3 (createSession 5 (10 : ℕ) (mapSet 3 7 (emptyStore ℕ))).2 = some 7 :=
  ⟨(C7_fresh_id_amended 5 10 (mapSet 3 7 (emptyStore ℕ)) rfl).1,
    ((C7_fresh_id_amended 5 10 (mapSet 3 7 (emptyStore ℕ)) rfl).2.2 3 7 rfl).2⟩

/-- No moment that leaves the process-video pipeline carries a degraded key:
the handler never writes one. -/
theorem processVideos_degraded_none (videos : List InVideo) (T : ℚ)
    (rand : ℕ → ℕ → ℚ) :
    ∀ m ∈ processVideos videos T rand, m.degraded = none := by
  intro m hm
  have h1 : m ∈ (((buildAll T rand 0 0 videos).insertionSort scoreGeP).take
      ((⌈T / (4.5 : ℚ)⌉).toNat)) := (List.mem_insertionSort _).mp hm
  have h2 : m ∈ (buildAll T rand 0 0 videos).insertionSort scoreGeP :=
    List.mem_of_mem_take h1
  have h3 : m ∈ buildAll T rand 0 0 videos := (List.mem_insertionSort _).mp h2
  obtain ⟨v, hv, j, m2, hm2, ord, rfl⟩ := buildAll_mem T rand videos 0 0 m h3
  rfl

/-- Claim C8 counterexample: a batch whose single video has no duration
metadata (at the constant 1/2 stream). The pipeline emits 7 moments, and it is
false that every resulting moment carries degraded = true: none of them does
(no degraded key is ever written). -/
theorem C8_degraded_flag_counterexample :
    (processVideos [videoNoDuration] 30 halfRand2).length = 7 ∧
      ¬ (∀ m ∈ processVideos [videoNoDuration] 30 halfRand2,
          m.degraded = some true) := by
  have hlen : (processVideos [videoNoDuration] 30 halfRand2).length = 7 :=
    of_decide_eq_true (by with_unfolding_all rfl)
  refine ⟨hlen, ?_⟩
  intro hall
  have hpos : 0 < (processVideos [videoNoDuration] 30 halfRand2).length := by omega
  have hmem := List.get_mem (processVideos [videoNoDuration] 30 halfRand2) 0 hpos
  have hsome := hall _ hmem
  have hnone := processVideos_degraded_none [videoNoDuration] 30 halfRand2 _ hmem
  rw [hsome] at hnone
  exact Option.noConfusion hnone

/-- Claim C8 amended: when a video's duration is unknown the pipeline uses the
600-second policy default rather than failing (the selection loop is total and
runs detectBestMoments with effectiveDuration, which maps a missing duration
to 600), but no moment is flagged degraded: the handler never writes such a
key, so on every moment the degraded field reads as absent. -/
theorem C8_default_duration (videos : List InVideo) (T : ℚ) (rand : ℕ → ℕ → ℚ) :
    ((processVideos videos T rand).all fun m => m.degraded.isNone) = true ∧
      effectiveDuration none = 600 := by
  constructor
  · rw [List.all_eq_true]
    intro m hm
    have h := processVideos_degraded_none videos T rand m hm
    rw [h]
    rfl
  · rfl

/-- Indexing the detect-video batch: entry i is detectOne of url i. -/
theorem detectVideos_getD (resolve : String → Except String VideoMeta)
    (errId : ℕ → String) (urls : List String) (i : ℕ) (hi : i < urls.length) :
    (detectVideos resolve errId urls).getD i default =
      detectOne resolve (errId i) (urls.getD i "") := by
  have hlen : (detectVideos resolve errId urls).length = urls.length := by
    simp [detectVideos]
  rw [List.getD_eq_getElem?_getD, List.getElem?_eq_getElem (by omega)]
  simp [detectVideos]

/-- Claim C9: for every url batch, the detect-video handler returns exactly
one entry per input url; an entry whose metadata fetch fails is replaced by
the placeholder (error message attached, default duration 600, error title,
original url kept) while an entry whose fetch succeeds carries no error — so a
single failure degrades only its own entry and the batch still succeeds. -/
theorem C9_batch_degradation (resolve : String → Except String VideoMeta)
    (errId : ℕ → String) (urls : List String) :
    (detectVideos resolve errId urls).length = urls.length ∧
      (∀ i : ℕ, i < urls.length → ∀ e : String,
        resolve (urls.getD i "") = .error e →
          ((detectVideos resolve errId urls).getD i default).error = some e ∧
          ((detectVideos resolve errId urls).getD i default).duration = 600 ∧
          ((detectVideos resolve errId urls).getD i default).title =
            "Error loading video" ∧
          ((detectVideos resolve errId urls).getD i default).url = urls.getD i "") ∧
      (∀ i : ℕ, i < urls.length → ∀ mta : VideoMeta,
        resolve (urls.getD i "") = .ok mta →
          ((detectVideos resolve errId urls).getD i default).error = none) := by
  refine ⟨by simp [detectVideos], ?_, ?_⟩
  · intro i hi e he
    rw [detectVideos_getD resolve errId urls i hi]
    rw [List.getD_eq_getElem?_getD] at he
    simp [detectOne, he]
  · intro i hi mta hok
    rw [detectVideos_getD resolve errId urls i hi]
    rw [List.getD_eq_getElem?_getD] at hok
    simp [detectOne, hok]

/-- Witness for C9 on the two-url batch [good, bad] with a resolver failing on
"bad" only. -/
theorem C9_batch_degradation_witness :
    (detectVideos resolveW errIdW ["good", "bad"]).length = 2 ∧
      ((detectVideos resolveW errIdW ["good", "bad"]).getD 1 default).error =
        some "boom" ∧
      ((detectVideos resolveW errIdW ["good", "bad"]).getD 0 default).error = none :=
  ⟨(C9_batch_degradation resolveW errIdW ["good", "bad"]).1,
    ((C9_batch_degradation resolveW errIdW ["good", "bad"]).2.1 1 (by norm_num) "boom"
      (by with_unfolding_all rfl)).1,
    (C9_batch_degradation resolveW errIdW ["good", "bad"]).2.2 0 (by norm_num)
      ⟨"id1", "A title", "An author", "thumb", 300, "5:00"⟩
      (by with_unfolding_all rfl)⟩

/-- Claim C10: downloads are one-shot per session. When session sid holds data
d, the download POST returns the compiled artifact, deletes sid from the store
before returning, and a second POST with the same sid gets the 404
"Session not found or expired" response. -/
theorem C10_one_shot_download (st : SessionMap SessionData) (sid : ℕ)
    (d : SessionData) (h : getSession sid st = some d) :
    (downloadPost (some sid) st).1 = .ok (generateMP4WithMoments d.moments) ∧
      getSession sid (downloadPost (some sid) st).2 = none ∧
      (downloadPost (some sid) (downloadPost (some sid) st).2).1 =
        .notFound "Session not found or expired" := by
  have h2 : (downloadPost (some sid) st).2 = deleteSession sid st := by
    simp [downloadPost, h]
  refine ⟨by simp [downloadPost, h], ?_, ?_⟩
  · rw [h2]
    simp [getSession, deleteSession, mapDelete]
  · rw [h2]
    simp [downloadPost, getSession, deleteSession, mapDelete]

/-- Witness for C10 on a store holding a single session with id 1. -/
theorem C10_one_shot_download_witness :
    (downloadPost (some 1)
        (downloadPost (some 1) (mapSet 1 sessionD (emptyStore SessionData))).2).1 =
      .notFound "Session not found or expired" :=
  (C10_one_shot_download (mapSet 1 sessionD (emptyStore SessionData)) 1 sessionD
    rfl).2.2

/-- Witness for C2 amended on a concrete batch. -/
theorem C2_selection_order_witness :
    (processVideos [videoSix] 30 halfRand2).Pairwise
      (fun a b => a.order < b.order) :=
  (C2_selection_order [videoSix] 30 halfRand2).2

/-- Witness for C3 amended at the constant 1/2 stream. -/
theorem C3_short_video_moments_witness :
    (detectBestMoments 3 30 halfRand).length = 7 :=
  (C3_short_video_moments halfRand).1

/-- Witness for C6 on a concrete store. -/
theorem C6_session_store_contract_witness :
    getSession (createSession 5 (10 : ℕ) (emptyStore ℕ)).1
      (createSession 5 (10 : ℕ) (emptyStore ℕ)).2 = some 10 :=
  (C6_session_store_contract 5 10 (emptyStore ℕ) 3).1

/-- Witness for C8 amended on a concrete duration-less batch. -/
theorem C8_default_duration_witness :
    ((processVideos [videoNoDuration] 30 halfRand2).all
      fun m => m.degraded.isNone) = true :=
  (C8_default_duration [videoNoDuration] 30 halfRand2).1
